import Mathlib

/-!
Shallow embedding of the bakery inventory & sales API.

The data model follows `supabase/migrations/001_init.sql` (tables
`products` and `sales`, the `product_read_model` view and the
`get_best_sellers` RPC) together with the later soft-delete
migration, which adds `products.deleted_at` and refilters the view
by `deleted_at is null`; the operations follow the Express handlers
and zod schemas of the server source.  Monetary values are
`numeric(12,2)`, i.e. fixed-point with two decimal places: they are
modelled as integers counting hundredths.  Timestamps are naturals,
and uuid identifiers are naturals with their opaque total order.
-/

namespace Bakery

/-- A row of the `products` table: `id`, `name`, `price numeric(12,2)`
(checked nonnegative at the API boundary), `total_stock integer`
(checked nonnegative), nullable `image_path`, and the nullable
`deleted_at timestamptz default null` added by the soft-delete
migration.  No handler ever writes `deleted_at` (there is no delete
endpoint and the update schema has no such field), so rows created
through the API keep it null. -/
structure Product where
  id : Nat
  name : String
  price : Int
  totalStock : Nat
  imagePath : Option String
  deletedAt : Option Nat
deriving DecidableEq

/-- A row of the `sales` table: `product_id`, `quantity integer check
(quantity > 0)`, `unit_price numeric(12,2)`, `sold_at timestamptz`.
`total_amount` is a generated column, see `Sale.totalAmount`. -/
structure Sale where
  id : Nat
  productId : Nat
  quantity : Nat
  unitPrice : Int
  soldAt : Nat
deriving DecidableEq

/-- `total_amount numeric(14,2) generated always as (quantity *
unit_price) stored`: derived, never independently settable. -/
def Sale.totalAmount (s : Sale) : Int := s.quantity * s.unitPrice

/-- The persistent state: the two tables. -/
structure DB where
  products : List Product
  sales : List Sale
deriving DecidableEq

/-- `sold_quantity` of the `product_read_model` view:
`coalesce(sum(s.quantity), 0)` over the sales referencing the product. -/
def soldQuantity (db : DB) (pid : Nat) : Nat :=
  ((db.sales.filter (fun s => s.productId = pid)).map Sale.quantity).sum

/-- `remaining_stock` of the `product_read_model` view:
`p.total_stock - coalesce(sum(s.quantity), 0)`, a SQL integer
expression that may be negative. -/
def remainingStock (db : DB) (p : Product) : Int :=
  (p.totalStock : Int) - (soldQuantity db p.id : Int)

/-- The row set of the `product_read_model` view after the
soft-delete migration: the products with `deleted_at is null`. -/
def readModel (db : DB) : List Product :=
  db.products.filter (fun p => p.deletedAt.isNone)

/-- `fetchProductById` resolves a product row through the
`product_read_model` view, so soft-deleted rows do not resolve. -/
def findProduct (db : DB) (pid : Nat) : Option Product :=
  (readModel db).find? (fun p => p.id = pid)

/-- A lookup against the raw `products` table (used by the
`get_best_sellers` join, which the migration did not refilter). -/
def findRow (db : DB) (pid : Nat) : Option Product :=
  db.products.find? (fun p => p.id = pid)

/-- `remaining_stock` looked up by id. -/
def remainingOf (db : DB) (pid : Nat) : Option Int :=
  (findProduct db pid).map (remainingStock db)

/-- The error responses the handlers send via `sendError`:
400 InvalidRequest with a message, 404 NotFound, 500 ServerError. -/
inductive ApiError
  | invalidRequest (message : String)
  | notFound
  | serverError
deriving DecidableEq

instance {ε α : Type} [DecidableEq ε] [DecidableEq α] :
    DecidableEq (Except ε α) := fun x y =>
  match x, y with
  | .ok a, .ok b =>
    if h : a = b then .isTrue (by rw [h]) else .isFalse (by simp [h])
  | .error e, .error f =>
    if h : e = f then .isTrue (by rw [h]) else .isFalse (by simp [h])
  | .ok _, .error _ => .isFalse (by simp)
  | .error _, .ok _ => .isFalse (by simp)

/-- POST /sales: parse `saleCreateSchema` (`quantity` integer ≥ 1),
resolve the product from `product_read_model`, reject with 400
"Not enough stock" when `quantity > remainingStock`, otherwise insert
the sale with `unit_price` set to the product's current price.  The
returned state is unchanged on every error path. -/
def recordSale (db : DB) (pid : Nat) (qty : Int) (now : Nat) :
    DB × Except ApiError Sale :=
  if qty < 1 then
    (db, .error (.invalidRequest "Number must be greater than or equal to 1"))
  else
    match findProduct db pid with
    | none => (db, .error .notFound)
    | some p =>
      if qty > remainingStock db p then
        (db, .error (.invalidRequest "Not enough stock"))
      else
        let s : Sale :=
          { id := db.sales.length, productId := pid, quantity := qty.toNat,
            unitPrice := p.price, soldAt := now }
        ({ db with sales := db.sales ++ [s] }, .ok s)

/-- The body of a PATCH /products/:id request after JSON decoding:
each field optional, as in `productUpdateSchema`. -/
structure UpdatePayload where
  name : Option String
  price : Option Int
  totalStock : Option Int
  imagePath : Option String
deriving DecidableEq

/-- `productUpdateSchema` validation: optional `name` and `imagePath`
nonempty, optional `price` and `totalStock` nonnegative, and the
refinement that at least one field is supplied. -/
def updatePayloadError (u : UpdatePayload) : Option ApiError :=
  if u.name.any (fun n => n.length = 0) then
    some (.invalidRequest "String must contain at least 1 character(s)")
  else if u.price.any (fun q => q < 0) then
    some (.invalidRequest "Number must be greater than or equal to 0")
  else if u.totalStock.any (fun t => t < 0) then
    some (.invalidRequest "Number must be greater than or equal to 0")
  else if u.imagePath.any (fun i => i.length = 0) then
    some (.invalidRequest "String must contain at least 1 character(s)")
  else if u.name.isNone && u.price.isNone && u.totalStock.isNone
      && u.imagePath.isNone then
    some (.invalidRequest "At least one field is required")
  else none

/-- The `updateBody` built by the PATCH handler: only the supplied
fields are written, every other column keeps its stored value. -/
def applyUpdate (u : UpdatePayload) (p : Product) : Product :=
  { p with
    name := u.name.getD p.name
    price := u.price.getD p.price
    totalStock := (u.totalStock.map Int.toNat).getD p.totalStock
    imagePath := match u.imagePath with
      | some i => some i
      | none => p.imagePath }

/-- PATCH /products/:id: parse `productUpdateSchema` (400 on failure,
before any query), `update ... eq id` (404 via PGRST116 when the id
matches no row), then answer with the row re-read through the view.
The target is resolved through the view here: a soft-deleted target —
which no public operation can produce, since nothing ever writes
`deleted_at` — would be updated in the table but answered with a null
body, a state outside every claim.  No comparison against
`sold_quantity` is performed anywhere on this path. -/
def updateProduct (db : DB) (pid : Nat) (u : UpdatePayload) :
    DB × Except ApiError Product :=
  match updatePayloadError u with
  | some e => (db, .error e)
  | none =>
    match findProduct db pid with
    | none => (db, .error .notFound)
    | some p =>
      let p' := applyUpdate u p
      ({ db with
          products := db.products.map (fun q => if q.id = pid then applyUpdate u q else q) },
        .ok p')

/-- The body of a POST /products request, as in `productCreateSchema`. -/
structure CreatePayload where
  name : String
  price : Int
  totalStock : Int
  imagePath : Option String
deriving DecidableEq

/-- POST /products: parse `productCreateSchema` (name nonempty, price
nonnegative, totalStock nonnegative integer, optional nonempty
imagePath), then insert a fresh row. -/
def createProduct (db : DB) (c : CreatePayload) :
    DB × Except ApiError Product :=
  if c.name.length = 0 then
    (db, .error (.invalidRequest "String must contain at least 1 character(s)"))
  else if c.price < 0 then
    (db, .error (.invalidRequest "Number must be greater than or equal to 0"))
  else if c.totalStock < 0 then
    (db, .error (.invalidRequest "Number must be greater than or equal to 0"))
  else if c.imagePath.any (fun i => i.length = 0) then
    (db, .error (.invalidRequest "String must contain at least 1 character(s)"))
  else
    let p : Product :=
      { id := db.products.length, name := c.name, price := c.price,
        totalStock := c.totalStock.toNat, imagePath := c.imagePath,
        deletedAt := none }
    ({ db with products := db.products ++ [p] }, .ok p)

/-- A query-string number after `z.coerce.number()`: the parameter is
missing, coerces to an integral value, or coerces to something that is
not an integer (NaN or fractional), which `.int()` rejects. -/
inductive QueryNum
  | missing
  | intVal (n : Int)
  | nonInt
deriving DecidableEq

/-- The `page` field of `paginationSchema`:
`z.coerce.number().int().min(1).default(1)`. -/
def parsePage : QueryNum → Except ApiError Int
  | .missing => .ok 1
  | .intVal n =>
    if n < 1 then .error (.invalidRequest "Number must be greater than or equal to 1")
    else .ok n
  | .nonInt => .error (.invalidRequest "Expected number, received nan")

/-- The `limit` field of `paginationSchema`:
`z.coerce.number().int().min(1).max(100).default(20)`. -/
def parseLimit : QueryNum → Except ApiError Int
  | .missing => .ok 20
  | .intVal n =>
    if n < 1 then .error (.invalidRequest "Number must be greater than or equal to 1")
    else if 100 < n then .error (.invalidRequest "Number must be less than or equal to 100")
    else .ok n
  | .nonInt => .error (.invalidRequest "Expected number, received nan")

/-- `paginationSchema.safeParse` on the request query. -/
def parsePagination (page limit : QueryNum) : Except ApiError (Int × Int) := do
  let p ← parsePage page
  let l ← parseLimit limit
  return (p, l)

/-- Lexicographic comparison of character lists, the order `order by
name` uses on text. -/
def leChars : List Char → List Char → Bool
  | [], _ => true
  | _ :: _, [] => false
  | a :: as, b :: bs =>
    if a < b then true
    else if b < a then false
    else leChars as bs

/-- The name order of `order by name ascending`. -/
def nameLe (a b : Product) : Prop := leChars a.name.data b.name.data = true

instance : DecidableRel nameLe := fun a b => by
  unfold nameLe
  infer_instance

/-- The `order by name ascending` of GET /products. -/
def sortByName (ps : List Product) : List Product :=
  ps.insertionSort nameLe

/-- GET /products: parse pagination (400 before any query on failure),
then `select * from product_read_model order by name` with
`range(offset, offset + limit - 1)` and an exact row count — the view
carries `where deleted_at is null`, so only non-deleted rows are
listed and counted. -/
def listProducts (db : DB) (page limit : QueryNum) :
    Except ApiError (List Product × Nat) := do
  let (p, l) ← parsePagination page limit
  let offset := (p - 1) * l
  return (((sortByName (readModel db)).drop offset.toNat).take l.toNat,
    (readModel db).length)

/-- The `order by sold_at descending` of GET /sales. -/
def sortBySoldAtDesc (ss : List Sale) : List Sale :=
  ss.insertionSort (fun a b => b.soldAt ≤ a.soldAt)

/-- GET /sales: parse the query (400 before any query on failure),
filter by optional product id and `sold_at` window, order by `sold_at`
descending, paginate with an exact count of the filtered rows. -/
def listSales (db : DB) (page limit : QueryNum)
    (productId fromTs toTs : Option Nat) :
    Except ApiError (List Sale × Nat) := do
  let (p, l) ← parsePagination page limit
  let filtered := db.sales.filter (fun s =>
    (productId.all (fun pid => s.productId = pid)) &&
    (fromTs.all (fun f => f ≤ s.soldAt)) &&
    (toTs.all (fun t => s.soldAt ≤ t)))
  let offset := (p - 1) * l
  return (((sortBySoldAtDesc filtered).drop offset.toNat).take l.toNat,
    filtered.length)

/-- The window predicate of the `filtered_sales` CTE in
`get_best_sellers`: `(from_ts is null or sold_at >= from_ts) and
(to_ts is null or sold_at <= to_ts)`. -/
def inWindow (fromTs toTs : Option Nat) (s : Sale) : Bool :=
  (fromTs.all (fun f => f ≤ s.soldAt)) && (toTs.all (fun t => s.soldAt ≤ t))

/-- The `filtered_sales` CTE: sales joined to their row of the raw
`products` table (the RPC was not refiltered by the soft-delete
migration, so sales of soft-deleted products still count) and
restricted to the window. -/
def filteredSales (db : DB) (fromTs toTs : Option Nat) : List Sale :=
  db.sales.filter (fun s => (findRow db s.productId).isSome && inWindow fromTs toTs s)

/-- A row of the `aggregated` CTE: per product id, the joined name and
current price together with `sum(quantity)` and `sum(total_amount)`. -/
structure AggRow where
  productId : Nat
  name : String
  price : Int
  soldQuantity : Nat
  totalRevenue : Int
deriving DecidableEq

/-- The `aggregated` CTE: group the filtered sales by `product_id`. -/
def aggregate (db : DB) (fromTs toTs : Option Nat) : List AggRow :=
  let fs := filteredSales db fromTs toTs
  ((fs.map Sale.productId).dedup).filterMap (fun pid =>
    match findRow db pid with
    | none => none
    | some p =>
      let ss := fs.filter (fun s => s.productId = pid)
      some { productId := pid, name := p.name, price := p.price,
             soldQuantity := (ss.map Sale.quantity).sum,
             totalRevenue := (ss.map Sale.totalAmount).sum })

/-- `order by key desc, product_id asc limit 1` over the aggregated
rows: `none` on the empty aggregation, otherwise the row maximising
the key with ties broken by the smallest product id. -/
def pickBest (key : AggRow → Int) : List AggRow → Option AggRow
  | [] => none
  | a :: rest =>
    match pickBest key rest with
    | none => some a
    | some b =>
      if key a < key b ∨ (key a = key b ∧ b.productId ≤ a.productId) then some b
      else some a

/-- The `get_best_sellers(from_ts, to_ts)` RPC: the
`best_by_quantity` and `best_by_revenue` selections (each `null` when
no sales fall in the window). -/
def getBestSellers (db : DB) (fromTs toTs : Option Nat) :
    Option AggRow × Option AggRow :=
  let agg := aggregate db fromTs toTs
  (pickBest (fun r => (r.soldQuantity : Int)) agg,
   pickBest (fun r => r.totalRevenue) agg)

/-- One public mutating request. -/
inductive Op
  | create (c : CreatePayload)
  | update (pid : Nat) (u : UpdatePayload)
  | sale (pid : Nat) (qty : Int) (now : Nat)

/-- Sequential execution of one request against the state. -/
def applyOp (db : DB) : Op → DB
  | .create c => (createProduct db c).1
  | .update pid u => (updateProduct db pid u).1
  | .sale pid qty now => (recordSale db pid qty now).1

/-- The initial, empty state. -/
def emptyDB : DB := ⟨[], []⟩

/-- The state after a sequence of public requests from the empty state. -/
def runOps (ops : List Op) : DB := ops.foldl applyOp emptyDB

/-!
Interleaved execution of POST /sales.

The handler performs two separate awaited database operations: the
`product_read_model` fetch (the snapshot whose `remaining_stock` and
`price` it uses) and the `insert` into `sales`.  Requests handled
concurrently may interleave at this boundary; each database operation
itself is atomic.
-/

/-- One in-flight POST /sales request for a fixed product: its
quantity, the snapshot `(price, remaining_stock)` captured by the
fetch once it has run, and the outcome once the request finished. -/
structure ReqState where
  qty : Nat
  snap : Option (Int × Int)
  res : Option Bool
deriving DecidableEq

/-- The two awaited database operations of the handler. -/
inductive Phase
  | read
  | commit
deriving DecidableEq

/-- The shared state of an interleaved execution: the database and the
in-flight requests. -/
structure CState where
  db : DB
  reqs : List ReqState
deriving DecidableEq

/-- The fetch of request `i`: capture the product's current price and
`remaining_stock` (404 when the product is missing). -/
def readStep (pid : Nat) (st : CState) (i : Nat) : CState :=
  match st.reqs.get? i with
  | none => st
  | some r =>
    match findProduct st.db pid with
    | none => { st with reqs := st.reqs.set i { r with res := some false } }
    | some p =>
      { st with
          reqs := st.reqs.set i { r with snap := some (p.price, remainingStock st.db p) } }

/-- The insert of request `i`: the stock check compares the quantity
against the snapshot's `remaining_stock`; on success the sale is
appended with the snapshot's price as `unit_price`. -/
def commitStep (pid now : Nat) (st : CState) (i : Nat) : CState :=
  match st.reqs.get? i with
  | none => st
  | some r =>
    match r.snap with
    | none => st
    | some snap =>
      if (r.qty : Int) > snap.2 then
        { st with reqs := st.reqs.set i { r with res := some false } }
      else
        let s : Sale :=
          { id := st.db.sales.length, productId := pid, quantity := r.qty,
            unitPrice := snap.1, soldAt := now }
        { st with
            db := { st.db with sales := st.db.sales ++ [s] },
            reqs := st.reqs.set i { r with res := some true } }

/-- Run a schedule: a sequence of (request index, phase) events. -/
def runSchedule (pid now : Nat) (init : CState) (evs : List (Nat × Phase)) : CState :=
  evs.foldl (fun st e =>
    match e.2 with
    | .read => readStep pid st e.1
    | .commit => commitStep pid now st e.1) init

/-! Helper lemmas. -/

theorem leChars_total : ∀ as bs, leChars as bs = true ∨ leChars bs as = true
  | [], _ => Or.inl rfl
  | _ :: _, [] => Or.inr rfl
  | a :: as, b :: bs => by
    by_cases hab : a < b
    · left
      simp [leChars, hab]
    · by_cases hba : b < a
      · right
        simp [leChars, hba]
      · rcases leChars_total as bs with h | h
        · left
          simp [leChars, hab, hba, h]
        · right
          simp [leChars, hab, hba, h]

theorem leChars_trans :
    ∀ as bs cs, leChars as bs = true → leChars bs cs = true → leChars as cs = true
  | [], _, _, _, _ => rfl
  | _ :: _, [], _, h1, _ => by simp [leChars] at h1
  | _ :: _, _ :: _, [], _, h2 => by simp [leChars] at h2
  | a :: as, b :: bs, c :: cs, h1, h2 => by
    simp only [leChars] at h1 h2 ⊢
    rcases lt_trichotomy a b with hab | hab | hab
    · rcases lt_trichotomy b c with hbc | hbc | hbc
      · simp [lt_trans hab hbc]
      · subst hbc
        simp [hab]
      · rw [if_neg (by exact fun h => absurd (lt_trans h hbc) (lt_irrefl b)),
          if_pos hbc] at h2
        exact absurd h2 (by simp)
    · subst hab
      rw [if_neg (lt_irrefl a), if_neg (lt_irrefl a)] at h1
      rcases lt_trichotomy a c with hac | hac | hac
      · simp [hac]
      · subst hac
        rw [if_neg (lt_irrefl a), if_neg (lt_irrefl a)] at h2 ⊢
        exact leChars_trans as bs cs h1 h2
      · rw [if_neg (by exact fun h => absurd (lt_trans h hac) (lt_irrefl a)),
          if_pos hac] at h2
        exact absurd h2 (by simp)
    · rw [if_neg (by exact fun h => absurd (lt_trans h hab) (lt_irrefl a)),
        if_pos hab] at h1
      exact absurd h1 (by simp)

instance : IsTotal Product nameLe :=
  ⟨fun a b => leChars_total a.name.data b.name.data⟩

instance : IsTrans Product nameLe :=
  ⟨fun a b c => leChars_trans a.name.data b.name.data c.name.data⟩

theorem pickBest_cons_ne_none (key : AggRow → Int) (x : AggRow) (xs : List AggRow) :
    pickBest key (x :: xs) ≠ none := by
  rw [pickBest]
  cases pickBest key xs with
  | none => simp
  | some c =>
    dsimp only
    split <;> simp

theorem pickBest_mem (key : AggRow → Int) :
    ∀ (l : List AggRow) (b : AggRow), pickBest key l = some b → b ∈ l
  | [], b, h => by simp [pickBest] at h
  | a :: rest, b, h => by
    rw [pickBest] at h
    cases hr : pickBest key rest with
    | none =>
      rw [hr] at h
      cases h
      exact List.mem_cons_self a rest
    | some c =>
      rw [hr] at h
      have h2 : (if key a < key c ∨ (key a = key c ∧ c.productId ≤ a.productId)
          then some c else some a) = some b := h
      by_cases hc : key a < key c ∨ (key a = key c ∧ c.productId ≤ a.productId)
      · rw [if_pos hc] at h2
        cases h2
        exact List.mem_cons_of_mem a (pickBest_mem key rest b hr)
      · rw [if_neg hc] at h2
        cases h2
        exact List.mem_cons_self a rest

theorem pickBest_optimal (key : AggRow → Int) :
    ∀ (l : List AggRow) (b : AggRow), pickBest key l = some b →
      ∀ g ∈ l, key g ≤ key b ∧ (key g = key b → b.productId ≤ g.productId)
  | [], b, h => by simp [pickBest] at h
  | a :: rest, b, h => by
    rw [pickBest] at h
    cases hr : pickBest key rest with
    | none =>
      rw [hr] at h
      cases h
      intro g hg
      rcases List.mem_cons.mp hg with hg | hg
      · subst hg
        exact ⟨le_refl _, fun _ => le_refl _⟩
      · cases rest with
        | nil => cases hg
        | cons x xs => exact absurd hr (pickBest_cons_ne_none key x xs)
    | some c =>
      rw [hr] at h
      have ih := pickBest_optimal key rest c hr
      have h2 : (if key a < key c ∨ (key a = key c ∧ c.productId ≤ a.productId)
          then some c else some a) = some b := h
      by_cases hc : key a < key c ∨ (key a = key c ∧ c.productId ≤ a.productId)
      · rw [if_pos hc] at h2
        cases h2
        intro g hg
        rcases List.mem_cons.mp hg with hg | hg
        · subst hg
          rcases hc with hlt | ⟨heq, hle⟩
          · exact ⟨le_of_lt hlt, fun he => absurd (he ▸ hlt) (lt_irrefl _)⟩
          · exact ⟨le_of_eq heq, fun _ => hle⟩
        · exact ih g hg
      · rw [if_neg hc] at h2
        cases h2
        push_neg at hc
        obtain ⟨hca, htie⟩ := hc
        intro g hg
        rcases List.mem_cons.mp hg with hg | hg
        · subst hg
          exact ⟨le_refl _, fun _ => le_refl _⟩
        · obtain ⟨hgc, hgtie⟩ := ih g hg
          refine ⟨le_trans hgc hca, fun hga => ?_⟩
          have hceq : key c = key a := le_antisymm hca (hga ▸ hgc)
          have := htie hceq.symm
          have := hgtie (by omega)
          omega

/-- The PATCH handler never writes to the `sales` table. -/
theorem updateProduct_sales_unchanged (db : DB) (pid : Nat) (u : UpdatePayload) :
    (updateProduct db pid u).1.sales = db.sales := by
  unfold updateProduct
  cases updatePayloadError u with
  | some e => rfl
  | none =>
    cases findProduct db pid with
    | none => rfl
    | some p => rfl

/-! Claim theorems. -/

/-- The state reached by creating a product with `totalStock = 5`,
selling 3 units, then updating the product with `totalStock = 1`. -/
def shrinkRun : DB :=
  runOps [.create ⟨"Bread", 200, 5, none⟩, .sale 0 3 10,
    .update 0 ⟨none, none, some 1, none⟩]

/-- C1: the claim asserts that in every state reachable through the
public operations, each product's `remainingStock` equals
`totalStock` minus the ledger sum and is nonnegative.  The first part
holds by the definition of the `product_read_model` view, but the
nonnegativity fails on the code: after `createProduct` with
`totalStock = 5`, a `recordSale` of quantity 3, and an
`updateProduct` setting `totalStock = 1` (which the PATCH handler
accepts without any check against `sold_quantity`), the view derives
`remainingStock = 1 - 3 = -2 < 0`. -/
theorem reachable_remaining_stock_negative :
    soldQuantity shrinkRun 0 = 3
      ∧ (findProduct shrinkRun 0).map Product.totalStock = some 1
      ∧ remainingOf shrinkRun 0 = some (-2) := by
  decide

/-- The state reached by creating a product with `totalStock = 5` and
selling 3 units, so that `sold_quantity = 3`. -/
def soldThreeRun : DB := runOps [.create ⟨"Cake", 300, 5, none⟩, .sale 0 3 1]

/-- C4: the claim asserts that `updateProduct` with `totalStock`
strictly below the current `soldQuantity` fails with `ConflictError`
and leaves the product unchanged.  On the code it does not fail at
all: with `soldQuantity = 3`, setting `totalStock = 1` succeeds and
stores the shrunk value — the PATCH handler performs no comparison
against `sold_quantity` and no `ConflictError` response exists
anywhere in the source. -/
theorem update_shrink_below_sold_succeeds :
    soldQuantity soldThreeRun 0 = 3
      ∧ (updateProduct soldThreeRun 0 ⟨none, none, some 1, none⟩).2
          = .ok ⟨0, "Cake", 300, 1, none, none⟩
      ∧ ((updateProduct soldThreeRun 0 ⟨none, none, some 1, none⟩).1.products.map
          Product.totalStock) = [1] := by
  decide

/-- Two concurrent unit sales against a product with one unit left:
both handlers fetch the `product_read_model` snapshot before either
inserts. -/
def lastUnitInit : CState :=
  ⟨(createProduct emptyDB ⟨"Pie", 200, 1, none⟩).1,
    [⟨1, none, none⟩, ⟨1, none, none⟩]⟩

/-- The final state of that interleaving. -/
def lastUnitFin : CState :=
  runSchedule 0 7 lastUnitInit [(0, .read), (1, .read), (0, .commit), (1, .commit)]

/-- C3: the claim asserts that of N concurrent unit sales against
stock K exactly min(N, K) succeed and the final `remainingStock` is
max(K − N, 0), and that two concurrent requests for the last unit
never both succeed.  The handler's stock check and insert are two
separate awaited database operations with no lock or conditional
write, so with K = 1 and N = 2 the schedule in which both requests
fetch their snapshot before either inserts admits both sales
(min(2, 1) = 1) and drives `remainingStock` to −1 instead of
max(1 − 2, 0) = 0. -/
theorem concurrent_last_unit_double_sell :
    lastUnitFin.reqs.map ReqState.res = [some true, some true]
      ∧ lastUnitFin.db.sales.length = 2
      ∧ remainingOf lastUnitFin.db 0 = some (-1) := by
  decide

/-- C2: for an existing product and a positive quantity, `recordSale`
rejects with the insufficient-stock error exactly when the quantity
exceeds `remainingStock` as recomputed from the ledger sum by the
`product_read_model` view; the state is unchanged on rejection, and
otherwise the sale is appended to the ledger. -/
theorem recordSale_insufficient_iff (db : DB) (pid : Nat) (qty : Int) (now : Nat)
    (p : Product) (hp : findProduct db pid = some p) (hq : 1 ≤ qty) :
    ((recordSale db pid qty now).2
        = .error (.invalidRequest "Not enough stock") ↔ remainingStock db p < qty)
      ∧ (remainingStock db p < qty → (recordSale db pid qty now).1 = db)
      ∧ (qty ≤ remainingStock db p →
          (recordSale db pid qty now).1.sales
            = db.sales ++ [⟨db.sales.length, pid, qty.toNat, p.price, now⟩]) := by
  unfold recordSale
  rw [if_neg (by omega), hp]
  dsimp only [gt_iff_lt]
  by_cases h : remainingStock db p < qty
  · rw [if_pos h]
    refine And.intro (Iff.intro (fun _ => h) (fun _ => rfl))
      (And.intro (fun _ => rfl) (fun hle => absurd h (not_lt.mpr hle)))
  · rw [if_neg h]
    refine And.intro (Iff.intro (fun he => by cases he) (fun hlt => absurd hlt h))
      (And.intro (fun hlt => absurd hlt h) (fun _ => rfl))

/-- Product "A" with `totalStock = 5` and price 2.00. -/
def stockFive : DB := (createProduct emptyDB ⟨"A", 200, 5, none⟩).1

/-- After one sale of quantity 2. -/
def stockFive1 : DB := (recordSale stockFive 0 2 1).1

/-- After two sales of quantity 2. -/
def stockFive2 : DB := (recordSale stockFive1 0 2 2).1

/-- Witness for C2: on a product with `totalStock = 5`, sequential
sales of quantity 2, 2, 2 give: first two succeed with
`remainingStock` 3 then 1, and the third is rejected with the
insufficient-stock error, `remainingStock` staying 1. -/
theorem recordSale_insufficient_iff_example :
    ((recordSale stockFive 0 2 1).2.isOk = true ∧ remainingOf stockFive1 0 = some 3)
      ∧ ((recordSale stockFive1 0 2 2).2.isOk = true
          ∧ remainingOf stockFive2 0 = some 1)
      ∧ (recordSale stockFive2 0 2 3).2 = .error (.invalidRequest "Not enough stock")
      ∧ (recordSale stockFive2 0 2 3).1 = stockFive2
      ∧ remainingOf stockFive2 0 = some 1 :=
  ⟨⟨by decide, by decide⟩, ⟨by decide, by decide⟩,
    (recordSale_insufficient_iff stockFive2 0 2 3 ⟨0, "A", 200, 5, none, none⟩
      (by decide) (by decide)).1.mpr (by decide),
    (recordSale_insufficient_iff stockFive2 0 2 3 ⟨0, "A", 200, 5, none, none⟩
      (by decide) (by decide)).2.1 (by decide),
    by decide⟩

/-- C5: whenever GET /products answers successfully, the returned
items are ordered by name ascending, every returned item is a
non-deleted row of the products table (the view's
`where deleted_at is null` excludes every product with `deleted_at`
set), and the returned total is the number of non-deleted products. -/
theorem listProducts_sorted_subset_total (db : DB) (page limit : QueryNum)
    (items : List Product) (total : Nat)
    (h : listProducts db page limit = .ok (items, total)) :
    List.Sorted nameLe items
      ∧ (∀ p ∈ items, p ∈ db.products ∧ p.deletedAt = none)
      ∧ total = (readModel db).length := by
  unfold listProducts at h
  cases hpl : parsePagination page limit with
  | error e =>
    rw [hpl] at h
    cases h
  | ok pl =>
    obtain ⟨p, l⟩ := pl
    rw [hpl] at h
    have h2 : (Except.ok
        (((sortByName (readModel db)).drop ((p - 1) * l).toNat).take l.toNat,
          (readModel db).length) : Except ApiError (List Product × Nat))
        = .ok (items, total) := h
    have h3 := Except.ok.inj h2
    have hsub : List.Sublist
        (((sortByName (readModel db)).drop ((p - 1) * l).toNat).take l.toNat)
        (sortByName (readModel db)) :=
      (List.take_sublist _ _).trans (List.drop_sublist _ _)
    cases h3
    refine ⟨List.Pairwise.sublist hsub (List.sorted_insertionSort nameLe (readModel db)),
      fun q hq => ?_, rfl⟩
    have hq2 : q ∈ readModel db :=
      (List.mem_insertionSort nameLe).mp (hsub.subset hq)
    have hq3 := List.mem_filter.mp hq2
    exact ⟨hq3.1, Option.isNone_iff_eq_none.mp hq3.2⟩

/-- Two live products whose insertion order disagrees with their name
order, plus a soft-deleted product. -/
def twoProducts : DB :=
  ⟨[⟨0, "Zeta", 200, 10, none, none⟩, ⟨1, "Alpha", 300, 10, none, none⟩,
    ⟨2, "Bagel", 100, 7, none, some 42⟩], []⟩

/-- Witness for C5: with defaults, the listing returns the two live
products reordered by name ascending with total 2, the soft-deleted
product is excluded, and the theorem's conclusions hold there. -/
theorem listProducts_sorted_subset_total_example :
    (listProducts twoProducts .missing .missing
        = .ok ([⟨1, "Alpha", 300, 10, none, none⟩,
            ⟨0, "Zeta", 200, 10, none, none⟩], 2)
      ∧ (⟨2, "Bagel", 100, 7, none, some 42⟩ : Product)
          ∉ [(⟨1, "Alpha", 300, 10, none, none⟩ : Product),
              ⟨0, "Zeta", 200, 10, none, none⟩]
      ∧ twoProducts.products.length = 3)
      ∧ (List.Sorted nameLe
            [⟨1, "Alpha", 300, 10, none, none⟩, ⟨0, "Zeta", 200, 10, none, none⟩]
        ∧ (∀ p ∈ [(⟨1, "Alpha", 300, 10, none, none⟩ : Product),
              ⟨0, "Zeta", 200, 10, none, none⟩],
            p ∈ twoProducts.products ∧ p.deletedAt = none)
        ∧ 2 = (readModel twoProducts).length) :=
  ⟨by decide,
    listProducts_sorted_subset_total twoProducts .missing .missing
      [⟨1, "Alpha", 300, 10, none, none⟩, ⟨0, "Zeta", 200, 10, none, none⟩] 2
      (by decide)⟩

/-- C6: every sale admitted by POST /sales stores as `unit_price` the
referenced product's price as of the commit, its `total_amount` is
the generated column `quantity * unit_price` (derived, never
settable), the sale is appended to the ledger, and later product
updates (in particular price changes) never rewrite stored sales. -/
theorem recordSale_price_capture (db : DB) (pid : Nat) (qty : Int) (now : Nat)
    (s : Sale) (h : (recordSale db pid qty now).2 = .ok s) :
    (∃ p, findProduct db pid = some p ∧ s.unitPrice = p.price)
      ∧ s.totalAmount = s.quantity * s.unitPrice
      ∧ (recordSale db pid qty now).1.sales = db.sales ++ [s]
      ∧ ∀ pid2 u, (updateProduct (recordSale db pid qty now).1 pid2 u).1.sales
          = (recordSale db pid qty now).1.sales := by
  unfold recordSale at h ⊢
  by_cases h1 : qty < 1
  · rw [if_pos h1] at h
    cases h
  · rw [if_neg h1] at h ⊢
    cases hp : findProduct db pid with
    | none =>
      rw [hp] at h
      cases h
    | some p =>
      rw [hp] at h
      dsimp only [gt_iff_lt] at h ⊢
      by_cases h2 : remainingStock db p < qty
      · rw [if_pos h2] at h
        cases h
      · rw [if_neg h2] at h ⊢
        cases h
        exact ⟨⟨p, rfl, rfl⟩, rfl, rfl,
          fun pid2 u => updateProduct_sales_unchanged _ pid2 u⟩

/-- Witness for C6: the first sale on `stockFive` commits the sale
row (id 0, quantity 2, unit price 2.00 = the product's price), and
the theorem's conclusions hold there. -/
theorem recordSale_price_capture_example :
    (recordSale stockFive 0 2 1).2 = .ok (⟨0, 0, 2, 200, 1⟩ : Sale)
      ∧ ((∃ p, findProduct stockFive 0 = some p
            ∧ (⟨0, 0, 2, 200, 1⟩ : Sale).unitPrice = p.price)
        ∧ (⟨0, 0, 2, 200, 1⟩ : Sale).totalAmount
            = (⟨0, 0, 2, 200, 1⟩ : Sale).quantity * (⟨0, 0, 2, 200, 1⟩ : Sale).unitPrice
        ∧ (recordSale stockFive 0 2 1).1.sales = stockFive.sales ++ [⟨0, 0, 2, 200, 1⟩]
        ∧ ∀ pid2 u, (updateProduct (recordSale stockFive 0 2 1).1 pid2 u).1.sales
            = (recordSale stockFive 0 2 1).1.sales) :=
  ⟨by decide, recordSale_price_capture stockFive 0 2 1 ⟨0, 0, 2, 200, 1⟩ (by decide)⟩

/-- C7: when no sale's `sold_at` lies in the requested window,
`get_best_sellers` returns `bestByQuantity = null` and
`bestByRevenue = null` — a successful result, not an error and not an
empty list. -/
theorem getBestSellers_empty_window (db : DB) (fromTs toTs : Option Nat)
    (h : ∀ s ∈ db.sales, inWindow fromTs toTs s = false) :
    getBestSellers db fromTs toTs = (none, none) := by
  have hf : filteredSales db fromTs toTs = [] := by
    rw [filteredSales, List.filter_eq_nil_iff]
    intro s hs
    simp [h s hs]
  simp only [getBestSellers, aggregate]
  rw [hf]
  rfl

/-- One product with one sale at time 5, queried with a window
starting at time 10. -/
def outsideWindow : DB := ⟨[⟨0, "A", 200, 5, none, none⟩], [⟨0, 0, 2, 200, 5⟩]⟩

/-- Witness for C7: the sale at time 5 is outside the window
`[10, ∞)`, and both best sellers are `null`. -/
theorem getBestSellers_empty_window_example :
    (∀ s ∈ outsideWindow.sales, inWindow (some 10) none s = false)
      ∧ getBestSellers outsideWindow (some 10) none = (none, none) :=
  ⟨by decide, getBestSellers_empty_window outsideWindow (some 10) none (by decide)⟩

/-- C8: `get_best_sellers` is deterministic under ties.  Whenever
`bestByQuantity` (resp. `bestByRevenue`) is returned, it is one of
the aggregated per-product rows, its summed quantity (resp. revenue)
is maximal, and every aggregated row tying with it at the maximum has
a product id greater than or equal to the returned one — i.e. among
tied products the smallest product id is selected, through
`order by ... desc, product_id limit 1`. -/
theorem getBestSellers_tiebreak_min_id (db : DB) (fromTs toTs : Option Nat) :
    (∀ b, (getBestSellers db fromTs toTs).1 = some b →
      b ∈ aggregate db fromTs toTs
        ∧ ∀ g ∈ aggregate db fromTs toTs,
            g.soldQuantity ≤ b.soldQuantity
              ∧ (g.soldQuantity = b.soldQuantity → b.productId ≤ g.productId))
      ∧ (∀ b, (getBestSellers db fromTs toTs).2 = some b →
        b ∈ aggregate db fromTs toTs
          ∧ ∀ g ∈ aggregate db fromTs toTs,
              g.totalRevenue ≤ b.totalRevenue
                ∧ (g.totalRevenue = b.totalRevenue → b.productId ≤ g.productId)) := by
  constructor
  · intro b hb
    have hb' : pickBest (fun r => (r.soldQuantity : Int)) (aggregate db fromTs toTs)
        = some b := hb
    refine ⟨pickBest_mem _ _ _ hb', fun g hg => ?_⟩
    obtain ⟨hle, htie⟩ := pickBest_optimal _ _ _ hb' g hg
    exact ⟨by exact_mod_cast hle, fun he => htie (by exact_mod_cast he)⟩
  · intro b hb
    have hb' : pickBest (fun r => r.totalRevenue) (aggregate db fromTs toTs)
        = some b := hb
    refine ⟨pickBest_mem _ _ _ hb', fun g hg => ?_⟩
    exact pickBest_optimal _ _ _ hb' g hg

/-- Two products tied on both summed quantity (2 each) and revenue
(6.00 each) in the window. -/
def tiedSales : DB :=
  ⟨[⟨0, "A", 200, 10, none, none⟩, ⟨1, "B", 300, 10, none, none⟩],
    [⟨0, 1, 2, 300, 5⟩, ⟨1, 0, 2, 300, 6⟩]⟩

/-- Witness for C8: with the tie, product id 0 (the smaller id) wins
both rankings, and the theorem's conclusions hold at the returned
row. -/
theorem getBestSellers_tiebreak_min_id_example :
    ((getBestSellers tiedSales none none).1.map AggRow.productId = some 0
        ∧ (getBestSellers tiedSales none none).2.map AggRow.productId = some 0)
      ∧ ((⟨0, "A", 200, 2, 600⟩ : AggRow) ∈ aggregate tiedSales none none
        ∧ ∀ g ∈ aggregate tiedSales none none,
            g.soldQuantity ≤ (⟨0, "A", 200, 2, 600⟩ : AggRow).soldQuantity
              ∧ (g.soldQuantity = (⟨0, "A", 200, 2, 600⟩ : AggRow).soldQuantity →
                  (⟨0, "A", 200, 2, 600⟩ : AggRow).productId ≤ g.productId)) :=
  ⟨by decide,
    (getBestSellers_tiebreak_min_id tiedSales none none).1 ⟨0, "A", 200, 2, 600⟩
      (by decide)⟩

/-- C9: PATCH /products/:id applies exactly the supplied fields: when
the update succeeds, every field absent from the payload keeps its
previous value and every supplied field takes the supplied value, the
id is unchanged, all other products are untouched, and the sales
ledger is untouched; a payload supplying no field at all fails with
the validation error and leaves the state unchanged. -/
theorem updateProduct_frame (db : DB) (pid : Nat) (u : UpdatePayload) :
    (u = ⟨none, none, none, none⟩ →
      (updateProduct db pid u).2
          = .error (.invalidRequest "At least one field is required")
        ∧ (updateProduct db pid u).1 = db)
      ∧ (∀ p p', findProduct db pid = some p →
          (updateProduct db pid u).2 = .ok p' →
            (u.name = none → p'.name = p.name)
          ∧ (∀ n, u.name = some n → p'.name = n)
          ∧ (u.price = none → p'.price = p.price)
          ∧ (∀ c, u.price = some c → p'.price = c)
          ∧ (u.totalStock = none → p'.totalStock = p.totalStock)
          ∧ (u.imagePath = none → p'.imagePath = p.imagePath)
          ∧ (∀ i, u.imagePath = some i → p'.imagePath = some i)
          ∧ p'.id = p.id
          ∧ (∀ q ∈ db.products, q.id ≠ pid →
              q ∈ (updateProduct db pid u).1.products)
          ∧ (updateProduct db pid u).1.sales = db.sales) := by
  constructor
  · intro hu
    subst hu
    exact ⟨rfl, rfl⟩
  · intro p p' hp hok
    unfold updateProduct at hok ⊢
    cases he : updatePayloadError u with
    | some e =>
      rw [he] at hok
      cases hok
    | none =>
      rw [he] at hok
      rw [hp] at hok ⊢
      have h2 : (Except.ok (applyUpdate u p) : Except ApiError Product)
          = .ok p' := hok
      cases Except.ok.inj h2
      refine ⟨fun hn => by simp [applyUpdate, hn],
        fun n hn => by simp [applyUpdate, hn],
        fun hc => by simp [applyUpdate, hc],
        fun c hc => by simp [applyUpdate, hc],
        fun ht => by simp [applyUpdate, ht],
        fun hi => by simp [applyUpdate, hi],
        fun i hi => by simp [applyUpdate, hi],
        rfl, fun q hq hne => ?_, rfl⟩
      have : (fun q => if q.id = pid then applyUpdate u q else q) q = q :=
        if_neg hne
      exact this ▸ List.mem_map_of_mem _ hq

/-- Witness for C9: on `twoProducts`, updating product 0 with only a
price change keeps name, stock and image, and the empty payload is
rejected with the state unchanged. -/
theorem updateProduct_frame_example :
    ((updateProduct twoProducts 0 ⟨none, none, none, none⟩).2
        = .error (.invalidRequest "At least one field is required")
      ∧ (updateProduct twoProducts 0 ⟨none, none, none, none⟩).1 = twoProducts)
      ∧ findProduct twoProducts 0 = some ⟨0, "Zeta", 200, 10, none, none⟩
      ∧ (updateProduct twoProducts 0 ⟨none, some 500, none, none⟩).2
          = .ok ⟨0, "Zeta", 500, 10, none, none⟩
      ∧ ((⟨0, "Zeta", 500, 10, none, none⟩ : Product).name
            = (⟨0, "Zeta", 200, 10, none, none⟩ : Product).name
        ∧ (⟨0, "Zeta", 500, 10, none, none⟩ : Product).totalStock
            = (⟨0, "Zeta", 200, 10, none, none⟩ : Product).totalStock) :=
  ⟨(updateProduct_frame twoProducts 0 ⟨none, none, none, none⟩).1 rfl,
    by decide, by decide,
    ((updateProduct_frame twoProducts 0 ⟨none, some 500, none, none⟩).2
        ⟨0, "Zeta", 200, 10, none, none⟩ ⟨0, "Zeta", 500, 10, none, none⟩
        (by decide) (by decide)).1 rfl,
    ((updateProduct_frame twoProducts 0 ⟨none, some 500, none, none⟩).2
        ⟨0, "Zeta", 200, 10, none, none⟩ ⟨0, "Zeta", 500, 10, none, none⟩
        (by decide) (by decide)).2.2.2.2.1 rfl⟩

/-- C10: both GET /products and GET /sales validate pagination
through `paginationSchema` before querying: a missing `page` defaults
to 1 and a missing `limit` to 20; a `page` below 1 or non-integral,
or a `limit` outside [1, 100] or non-integral, is rejected with a 400
validation error, and on a parse failure each handler returns exactly
that error for every database state — no query result is consulted.
In-range supplied values are passed through unchanged. -/
theorem pagination_defaults_and_bounds :
    parsePagination .missing .missing = .ok (1, 20)
      ∧ (∀ (lim : QueryNum) (n : Int), n < 1 →
          parsePagination (.intVal n) lim
            = .error (.invalidRequest "Number must be greater than or equal to 1"))
      ∧ (∀ lim : QueryNum,
          parsePagination .nonInt lim
            = .error (.invalidRequest "Expected number, received nan"))
      ∧ (∀ (pg : QueryNum) (n : Int), parsePage pg = .ok n →
          (∀ m : Int, m < 1 →
            parsePagination pg (.intVal m)
              = .error (.invalidRequest "Number must be greater than or equal to 1"))
          ∧ (∀ m : Int, 100 < m →
            parsePagination pg (.intVal m)
              = .error (.invalidRequest "Number must be less than or equal to 100"))
          ∧ parsePagination pg .nonInt
              = .error (.invalidRequest "Expected number, received nan"))
      ∧ (∀ n m : Int, 1 ≤ n → 1 ≤ m → m ≤ 100 →
          parsePagination (.intVal n) (.intVal m) = .ok (n, m))
      ∧ (∀ (db : DB) (page limit : QueryNum) (e : ApiError),
          parsePagination page limit = .error e →
            listProducts db page limit = .error e
              ∧ listSales db page limit none none none = .error e) := by
  refine ⟨rfl, ?_, ?_, ?_, ?_, ?_⟩
  · intro lim n hn
    unfold parsePagination parsePage
    dsimp only
    rw [if_pos hn]
    rfl
  · intro lim
    rfl
  · intro pg n hpg
    unfold parsePagination
    rw [hpg]
    refine ⟨fun m hm => ?_, fun m hm => ?_, rfl⟩
    · unfold parseLimit
      dsimp only
      rw [if_pos hm]
      rfl
    · unfold parseLimit
      dsimp only
      rw [if_neg (by omega), if_pos hm]
      rfl
  · intro n m hn hm1 hm2
    unfold parsePagination parsePage parseLimit
    dsimp only
    rw [if_neg (by omega), if_neg (by omega), if_neg (by omega)]
    rfl
  · intro db page limit e hpe
    unfold listProducts listSales
    rw [hpe]
    exact ⟨rfl, rfl⟩

/-- Witness for C10: defaults apply when the parameters are missing;
page 0 and limit 101 are rejected, and GET /products returns exactly
the parse error on `twoProducts` without consulting it. -/
theorem pagination_defaults_and_bounds_example :
    parsePagination .missing .missing = .ok (1, 20)
      ∧ parsePagination (.intVal 0) .missing
          = .error (.invalidRequest "Number must be greater than or equal to 1")
      ∧ parsePagination (.intVal 1) (.intVal 101)
          = .error (.invalidRequest "Number must be less than or equal to 100")
      ∧ parsePagination (.intVal 2) (.intVal 50) = .ok (2, 50)
      ∧ listProducts twoProducts (.intVal 0) .missing
          = .error (.invalidRequest "Number must be greater than or equal to 1")
      ∧ listSales twoProducts (.intVal 0) .missing none none none
          = .error (.invalidRequest "Number must be greater than or equal to 1") :=
  ⟨pagination_defaults_and_bounds.1,
    pagination_defaults_and_bounds.2.1 .missing 0 (by decide),
    (pagination_defaults_and_bounds.2.2.2.1 (.intVal 1) 1 (by decide)).2.1 101
      (by decide),
    pagination_defaults_and_bounds.2.2.2.2.1 2 50 (by decide) (by decide) (by decide),
    (pagination_defaults_and_bounds.2.2.2.2.2 twoProducts (.intVal 0) .missing
      (.invalidRequest "Number must be greater than or equal to 1") (by decide)).1,
    (pagination_defaults_and_bounds.2.2.2.2.2 twoProducts (.intVal 0) .missing
      (.invalidRequest "Number must be greater than or equal to 1") (by decide)).2⟩

end Bakery
